import Mathlib

/-!
Verification development for the PromptSpec library (Python source under
`promptspec/`).  The Python core is shallowly embedded: Python dictionaries
become insertion-ordered association lists, exceptions become `Except`
results, and the mutable Manager registry becomes explicit state passing.
Replacement values are the value universe the engine's contract admits
(string / int / float / boolean / null); Python floats are modelled as
rationals, since the engine only compares and never computes with them.
-/

/-- Runtime values that may appear in a replacements mapping or passthrough
configuration: Python `str`, `int`, `float`, `bool`, `None`. -/
inductive PyValue : Type
  | str (s : String)
  | int (n : Int)
  | float (q : ℚ)
  | bool (b : Bool)
  | null
deriving DecidableEq, Repr

/-- Python `str(value)` on the embedded value universe. -/
def pyStr : PyValue → String
  | .str s => s
  | .int n => toString n
  | .float q => toString q
  | .bool b => if b then "True" else "False"
  | .null => "None"

/-- Lookup in an insertion-ordered dictionary (`d[k]` / `k in d`). -/
def dictLookup {α : Type} : List (String × α) → String → Option α
  | [], _ => Option.none
  | (k, v) :: rest, n => if k = n then some v else dictLookup rest n

/-- Python `k in d` membership test on a dictionary. -/
def containsKey {α : Type} (d : List (String × α)) (k : String) : Bool :=
  (dictLookup d k).isSome

/-- Python truthiness of an optional dictionary: `None` and `{}` are falsy. -/
def pyTruthyDict {α : Type} : Option (List (String × α)) → Bool
  | Option.none => false
  | some l => !l.isEmpty

/-- Whitespace characters removed by Python `str.strip()` (ASCII set). -/
def isPySpace (c : Char) : Bool :=
  c = ' ' || c = '\t' || c = '\n' || c = '\r' || c = '\x0b' || c = '\x0c'

/-- Python `s.strip()`. -/
def pyStrip (s : String) : String :=
  String.mk (((s.toList.dropWhile isPySpace).reverse.dropWhile isPySpace).reverse)

/-- Mirrors `models/placeholder_definition.py::PlaceholderDefinition`
(`type` defaults to "string", `required` defaults to `False`). -/
structure PlaceholderDefinition where
  type : String
  required : Bool
deriving DecidableEq, Repr

/-- Mirrors `models/llm_parameters.py::LLMParameters` (all fields optional,
absent by default). -/
structure LLMParameters where
  temperature : Option ℚ
  top_p : Option ℚ
  max_tokens : Option Int
  stop_sequences : Option (List String)
deriving DecidableEq, Repr

/-- Field validator for `temperature` (`ge=0.0, le=2.0`, skipped on `None`). -/
def temperature_in_range : Option ℚ → Bool
  | Option.none => true
  | some t => decide (0 ≤ t) && decide (t ≤ 2)

/-- Field validator for `top_p` (`ge=0.0, le=1.0`, skipped on `None`). -/
def top_p_in_range : Option ℚ → Bool
  | Option.none => true
  | some p => decide (0 ≤ p) && decide (p ≤ 1)

/-- Field validator for `max_tokens` (`gt=0`, skipped on `None`). -/
def max_tokens_in_range : Option Int → Bool
  | Option.none => true
  | some m => decide (0 < m)

/-- Construction of `LLMParameters`: the declarative `Field` constraints are
checked at construction time and an out-of-domain value is rejected with a
validation error, never clamped. -/
def mkLLMParameters (temperature top_p : Option ℚ) (max_tokens : Option Int)
    (stop_sequences : Option (List String)) : Except String LLMParameters :=
  if !temperature_in_range temperature then
    .error "temperature must be in the range 0 to 2"
  else if !top_p_in_range top_p then
    .error "top_p must be in the range 0 to 1"
  else if !max_tokens_in_range max_tokens then
    .error "max_tokens must be greater than 0"
  else .ok ⟨temperature, top_p, max_tokens, stop_sequences⟩

/-- Mirrors `models/prompt_specification.py::PromptSpecification`. -/
structure PromptSpecification where
  name : String
  version : Option String
  description : Option String
  system_message : Option String
  template : String
  parameters : Option LLMParameters
  llm_config : Option (List (String × PyValue))
  placeholders : Option (List (String × PlaceholderDefinition))
  output_format : Option String
deriving DecidableEq, Repr

/-- Mirrors `models/prompt_collection.py::PromptCollection`. -/
structure PromptCollection where
  prompts : List PromptSpecification
deriving DecidableEq, Repr

/-- Exception hierarchy of `exceptions/prompt_exceptions.py`, flattened to a
sum.  `missingPlaceholder` and `placeholderType` are the
`PromptValidationException` subclasses carrying structured data. -/
inductive PromptError : Type
  | valueError (msg : String)
  | promptValidation (msg : String)
  | missingPlaceholder (placeholder_name : String)
  | placeholderType (placeholder_name expected_type actual_type : String)
deriving DecidableEq, Repr

/-- Python `isinstance(value, str)` on the embedded universe. -/
def isinstance_of_str : PyValue → Bool
  | .str _ => true
  | _ => false

/-- Python `isinstance(value, (int, float))` on the embedded universe.  A
Python `bool` is a subclass of `int`, so booleans satisfy this test. -/
def isinstance_of_int_or_float : PyValue → Bool
  | .int _ => true
  | .float _ => true
  | .bool _ => true
  | _ => false

/-- Python `isinstance(value, bool)` on the embedded universe. -/
def isinstance_of_bool : PyValue → Bool
  | .bool _ => true
  | _ => false

/-- Mirrors `PromptTemplate._get_value_type`: the `isinstance` chain in
source order (`str`, then `(int, float)`, then `bool`, else "string"). -/
def get_value_type (value : PyValue) : String :=
  if isinstance_of_str value then "string"
  else if isinstance_of_int_or_float value then "number"
  else if isinstance_of_bool value then "boolean"
  else "string"

/-- Python `s.lower()` (character-wise lowercase). -/
def pyLower (s : String) : String := String.mk (s.toList.map Char.toLower)

/-- Mirrors `PromptTemplate._validate_type`: case-insensitive comparison of
the declared type against the classified runtime type. -/
def validate_type (placeholder_name : String) (value : PyValue)
    (expected_type : String) : Except PromptError Unit :=
  let actual_type := get_value_type value
  if pyLower expected_type ≠ pyLower actual_type then
    .error (.placeholderType placeholder_name expected_type actual_type)
  else .ok ()

/-- The body of the `for placeholder_name, definition in ...` loop of
`PromptTemplate._validate_placeholders`, iterating in declaration order. -/
def validate_placeholders_loop (replacements : List (String × PyValue)) :
    List (String × PlaceholderDefinition) → Except PromptError Unit
  | [] => .ok ()
  | (placeholder_name, definition) :: rest =>
    if definition.required && !containsKey replacements placeholder_name then
      .error (.missingPlaceholder placeholder_name)
    else
      match dictLookup replacements placeholder_name with
      | some value =>
        if value = PyValue.null then validate_placeholders_loop replacements rest
        else
          match validate_type placeholder_name value definition.type with
          | .error e => .error e
          | .ok _ => validate_placeholders_loop replacements rest
      | Option.none => validate_placeholders_loop replacements rest

/-- Mirrors `PromptTemplate._validate_placeholders` (early return when the
declared placeholder map is absent or empty). -/
def validate_placeholders (spec : PromptSpecification)
    (replacements : List (String × PyValue)) : Except PromptError Unit :=
  if !pyTruthyDict spec.placeholders then .ok ()
  else validate_placeholders_loop replacements (spec.placeholders.getD [])

/-- Mirrors the `replace_placeholder` closure inside
`PromptTemplate.generate_prompt` (`str(value) if value is not None else ""`;
a required declared placeholder absent from the mapping raises). -/
def replace_placeholder (spec : PromptSpecification)
    (replacements : List (String × PyValue)) (placeholder_name : String) :
    Except PromptError String :=
  match dictLookup replacements placeholder_name with
  | some value => .ok (if value = PyValue.null then "" else pyStr value)
  | Option.none =>
    if pyTruthyDict spec.placeholders &&
        containsKey (spec.placeholders.getD []) placeholder_name then
      match dictLookup (spec.placeholders.getD []) placeholder_name with
      | some definition =>
        if definition.required then .error (.missingPlaceholder placeholder_name)
        else .ok ""
      | Option.none => .ok ""
    else .ok ""

/-- Left-to-right scan of `re.sub` with pattern `\{([^}]+)\}`: outside a
candidate match (`Option.none` state) characters are copied; after an opening
brace the accumulator collects the (reversed) candidate content, which may
itself contain opening braces but no closing brace; an empty candidate
(`\x7b\x7d`) is not a match and is copied verbatim; an unclosed candidate at
end of input is copied verbatim. -/
def subChars (f : String → Except PromptError String) :
    Option (List Char) → List Char → Except PromptError (List Char)
  | Option.none, [] => .ok []
  | Option.none, c :: rest =>
    if c = '{' then subChars f (some []) rest
    else
      match subChars f Option.none rest with
      | .error e => .error e
      | .ok t => .ok (c :: t)
  | some buf, [] => .ok ('{' :: buf.reverse)
  | some buf, c :: rest =>
    if c = '}' then
      if buf.isEmpty then
        match subChars f Option.none rest with
        | .error e => .error e
        | .ok t => .ok ('{' :: '}' :: t)
      else
        match f (String.mk buf.reverse) with
        | .error e => .error e
        | .ok r =>
          match subChars f Option.none rest with
          | .error e => .error e
          | .ok t => .ok (r.toList ++ t)
    else subChars f (some (c :: buf)) rest

/-- Mirrors `PromptTemplate.generate_prompt`: optional validation pass over
the declared placeholder map, then regex substitution over the template. -/
def generate_prompt (spec : PromptSpecification)
    (replacements : List (String × PyValue)) : Except PromptError String :=
  match (if pyTruthyDict spec.placeholders then
          validate_placeholders spec replacements
         else .ok ()) with
  | .error e => .error e
  | .ok _ =>
    match subChars (replace_placeholder spec replacements) Option.none
        spec.template.toList with
    | .error e => .error e
    | .ok cs => .ok (String.mk cs)

/-- Left-to-right scan of `re.findall` with pattern `\{([^}]+)\}`, mirroring
the matching discipline of `subChars` but collecting the captured names. -/
def findallChars : Option (List Char) → List Char → List String
  | Option.none, [] => []
  | Option.none, c :: rest =>
    if c = '{' then findallChars (some []) rest else findallChars Option.none rest
  | some _, [] => []
  | some buf, c :: rest =>
    if c = '}' then
      if buf.isEmpty then findallChars Option.none rest
      else String.mk buf.reverse :: findallChars Option.none rest
    else findallChars (some (c :: buf)) rest

/-- Mirrors `PromptTemplate.get_placeholder_names`:
`list(set(regex.findall(template)))` — duplicates collapsed (the embedding
keeps first occurrences; the Python set order is unspecified). -/
def get_placeholder_names (spec : PromptSpecification) : List String :=
  (findallChars Option.none spec.template.toList).dedup

example : get_placeholder_names
    ⟨"t", Option.none, Option.none, Option.none,
     "Hello {name}! Welcome to {platform}. Bye {name}.",
     Option.none, Option.none, Option.none, Option.none⟩ =
    ["platform", "name"] := by decide

/-- Mirrors `core/prompt_template.py::PromptTemplate`: the engine wraps one
specification (the constructor only checks it is not `None`); its methods
are embedded as functions taking the wrapped specification. -/
structure PromptTemplate where
  specification : PromptSpecification
deriving DecidableEq, Repr

/-- The Manager's registry `self._templates`: an insertion-ordered mapping
from template name to engine instance. -/
abbrev Registry := List (String × PromptTemplate)

/-- Mirrors `PromptManager.template_count`. -/
def template_count (templates : Registry) : Nat := templates.length

/-- Mirrors `PromptManager.template_names`. -/
def template_names (templates : Registry) : List String := templates.map Prod.fst

/-- Mirrors `PromptManager.has_prompt`
(`bool(prompt_name and prompt_name.strip() and prompt_name in self._templates)`). -/
def has_prompt (templates : Registry) (prompt_name : String) : Bool :=
  !(pyStrip prompt_name).isEmpty && containsKey templates prompt_name

/-- Mirrors `PromptManager.get_prompt` (usage error on blank name, otherwise
`self._templates.get(prompt_name)`). -/
def get_prompt (templates : Registry) (prompt_name : String) :
    Except PromptError (Option PromptTemplate) :=
  if (pyStrip prompt_name).isEmpty then
    .error (.valueError "prompt_name cannot be None or empty")
  else .ok (dictLookup templates prompt_name)

/-- The `for placeholder_name, definition in ...` loop of
`PromptManager._validate_specification`, rejecting blank placeholder keys. -/
def placeholder_keys_loop (spec_name : String) :
    List (String × PlaceholderDefinition) → Except PromptError Unit
  | [] => .ok ()
  | (placeholder_name, _) :: rest =>
    if (pyStrip placeholder_name).isEmpty then
      .error (.promptValidation
        ("Placeholder name cannot be empty in prompt \x27" ++ spec_name ++ "\x27."))
    else placeholder_keys_loop spec_name rest

/-- Mirrors `PromptManager._validate_specification`. -/
def validate_specification (specification : PromptSpecification) :
    Except PromptError Unit :=
  if (pyStrip specification.name).isEmpty then
    .error (.promptValidation "Prompt name is required and cannot be empty.")
  else if (pyStrip specification.template).isEmpty then
    .error (.promptValidation
      ("Template is required for prompt \x27" ++ specification.name ++
       "\x27 and cannot be empty."))
  else if pyTruthyDict specification.placeholders then
    placeholder_keys_loop specification.name (specification.placeholders.getD [])
  else .ok ()

/-- The `for specification in prompt_collection.prompts` loop of
`PromptManager.load_templates`, run after `self._templates.clear()`: the
accumulator is the registry as mutated so far, and is returned alongside the
raised error when validation or the duplicate-name check fails mid-loop. -/
def load_loop_sync : List PromptSpecification → Registry →
    Except PromptError Unit × Registry
  | [], templates => (.ok (), templates)
  | specification :: rest, templates =>
    match validate_specification specification with
    | .error e => (.error e, templates)
    | .ok _ =>
      if containsKey templates specification.name then
        (.error (.promptValidation
          ("Duplicate prompt name \x27" ++ specification.name ++ "\x27 found.")),
         templates)
      else load_loop_sync rest (templates ++ [(specification.name, ⟨specification⟩)])

/-- The identical `for specification in prompt_collection.prompts` loop as it
appears (duplicated) in the body of `PromptManager.load_templates_async`. -/
def load_loop_async : List PromptSpecification → Registry →
    Except PromptError Unit × Registry
  | [], templates => (.ok (), templates)
  | specification :: rest, templates =>
    match validate_specification specification with
    | .error e => (.error e, templates)
    | .ok _ =>
      if containsKey templates specification.name then
        (.error (.promptValidation
          ("Duplicate prompt name \x27" ++ specification.name ++ "\x27 found.")),
         templates)
      else load_loop_async rest (templates ++ [(specification.name, ⟨specification⟩)])

/-- Mirrors `PromptManager.load_templates`.  The external collaborators are
parameters: `safe_load` (the YAML parser, erring on `yaml.YAMLError`),
`truthy` and `has_prompts_key` (the `not yaml_data or 'prompts' not in
yaml_data` test on the parsed tree), and `model_validate` (Pydantic binding,
whose failure the generic `except` clause wraps).  The result pairs the
outcome with the registry state after the call. -/
def load_templates {Tree : Type} (safe_load : String → Except Unit Tree)
    (truthy : Tree → Bool) (has_prompts_key : Tree → Bool)
    (model_validate : Tree → Except Unit PromptCollection)
    (templates : Registry) (yaml_content : String) :
    Except PromptError Unit × Registry :=
  if (pyStrip yaml_content).isEmpty then
    (.error (.valueError "yaml_content cannot be None or empty"), templates)
  else
    match safe_load yaml_content with
    | .error _ => (.error (.promptValidation "Failed to parse YAML content."), templates)
    | .ok yaml_data =>
      if !truthy yaml_data || !has_prompts_key yaml_data then
        (.error (.promptValidation
          "Invalid YAML: No \x27prompts\x27 section found or it is null."), templates)
      else
        match model_validate yaml_data with
        | .error _ =>
          (.error (.promptValidation "An error occurred while loading templates."),
           templates)
        | .ok prompt_collection =>
          load_loop_sync prompt_collection.prompts []

/-- Mirrors `PromptManager.load_templates_async` (its body repeats
`load_templates` verbatim; the coroutine contains no `await`). -/
def load_templates_async {Tree : Type} (safe_load : String → Except Unit Tree)
    (truthy : Tree → Bool) (has_prompts_key : Tree → Bool)
    (model_validate : Tree → Except Unit PromptCollection)
    (templates : Registry) (yaml_content : String) :
    Except PromptError Unit × Registry :=
  if (pyStrip yaml_content).isEmpty then
    (.error (.valueError "yaml_content cannot be None or empty"), templates)
  else
    match safe_load yaml_content with
    | .error _ => (.error (.promptValidation "Failed to parse YAML content."), templates)
    | .ok yaml_data =>
      if !truthy yaml_data || !has_prompts_key yaml_data then
        (.error (.promptValidation
          "Invalid YAML: No \x27prompts\x27 section found or it is null."), templates)
      else
        match model_validate yaml_data with
        | .error _ =>
          (.error (.promptValidation "An error occurred while loading templates."),
           templates)
        | .ok prompt_collection =>
          load_loop_async prompt_collection.prompts []

/-- Value actually substituted for a placeholder occurrence when rendering
succeeds: the textual form of the mapped value if the name is a key of the
mapping (empty string for a null value), the empty string otherwise. -/
def presence_value (replacements : List (String × PyValue))
    (placeholder_name : String) : String :=
  match dictLookup replacements placeholder_name with
  | some value => if value = PyValue.null then "" else pyStr value
  | Option.none => ""

/-- Error-free counterpart of `subChars`: the same left-to-right scan, with a
total replacement function. -/
def pure_sub (g : String → String) : Option (List Char) → List Char → List Char
  | Option.none, [] => []
  | Option.none, c :: rest =>
    if c = '{' then pure_sub g (some []) rest else c :: pure_sub g Option.none rest
  | some buf, [] => '{' :: buf.reverse
  | some buf, c :: rest =>
    if c = '}' then
      if buf.isEmpty then '{' :: '}' :: pure_sub g Option.none rest
      else (g (String.mk buf.reverse)).toList ++ pure_sub g Option.none rest
    else pure_sub g (some (c :: buf)) rest

/-- Pure presence-in-map substitution over a template. -/
def presence_subst (template : String) (replacements : List (String × PyValue)) :
    String :=
  String.mk (pure_sub (presence_value replacements) Option.none template.toList)

/-- Helper constructing a specification with only the fields the engine
reads during rendering. -/
def mkSpec (name template : String)
    (placeholders : Option (List (String × PlaceholderDefinition))) :
    PromptSpecification :=
  ⟨name, Option.none, Option.none, Option.none, template, Option.none,
   Option.none, placeholders, Option.none⟩

theorem subChars_eq_pure (f : String → Except PromptError String)
    (g : String → String) (h : ∀ s, f s = .ok (g s)) :
    ∀ (l : List Char) (mode : Option (List Char)),
      subChars f mode l = .ok (pure_sub g mode l) := by
  intro l
  induction l with
  | nil => intro mode; cases mode <;> simp [subChars, pure_sub]
  | cons c rest ih =>
    intro mode
    cases mode with
    | none => by_cases hc : c = '{' <;> simp [subChars, pure_sub, hc, ih]
    | some buf =>
      by_cases hc : c = '}'
      · by_cases hb : buf.isEmpty <;> simp [subChars, pure_sub, hc, hb, ih, h]
      · simp [subChars, pure_sub, hc, ih]

theorem replace_placeholder_of_untruthy (spec : PromptSpecification)
    (replacements : List (String × PyValue))
    (hp : pyTruthyDict spec.placeholders = false) (placeholder_name : String) :
    replace_placeholder spec replacements placeholder_name =
      .ok (presence_value replacements placeholder_name) := by
  unfold replace_placeholder presence_value
  cases hl : dictLookup replacements placeholder_name with
  | some v => rfl
  | none => simp [hp]

/-- C7: for a specification with no declared placeholder definitions
(placeholder map absent or empty), rendering never raises on any
replacements mapping: it returns the template with each placeholder
occurrence replaced by the textual form of its mapped value when its name
is a key of the mapping (a null value as the empty string) and by the empty
string otherwise. -/
theorem generate_prompt_no_decls (spec : PromptSpecification)
    (replacements : List (String × PyValue))
    (hp : spec.placeholders = Option.none ∨ spec.placeholders = some []) :
    generate_prompt spec replacements =
      .ok (presence_subst spec.template replacements) := by
  have hfalse : pyTruthyDict spec.placeholders = false := by
    rcases hp with h | h <;> rw [h] <;> rfl
  unfold generate_prompt
  rw [hfalse]
  simp only [Bool.false_eq_true, if_false]
  rw [subChars_eq_pure (replace_placeholder spec replacements)
    (presence_value replacements)
    (replace_placeholder_of_untruthy spec replacements hfalse) spec.template.toList]
  rfl

/-- Closed instance of C7: a template with no declarations, rendered with a
mapping containing one of its two placeholders (a null) and an unrelated key. -/
theorem generate_prompt_no_decls_witness :
    (mkSpec "w" "A {x} B {y} C" Option.none).placeholders = Option.none ∧
    generate_prompt (mkSpec "w" "A {x} B {y} C" Option.none)
      [("x", PyValue.null), ("z", PyValue.int 9)] = .ok "A  B  C" := by
  refine ⟨rfl, ?_⟩
  have h := generate_prompt_no_decls (mkSpec "w" "A {x} B {y} C" Option.none)
    [("x", PyValue.null), ("z", PyValue.int 9)] (Or.inl rfl)
  rw [h]
  rfl

theorem replace_placeholder_of_singleton_present (spec : PromptSpecification)
    (replacements : List (String × PyValue)) (n ty : String)
    (hph : spec.placeholders = some [(n, ⟨ty, true⟩)])
    (hn : dictLookup replacements n = some PyValue.null) :
    ∀ m, replace_placeholder spec replacements m =
      .ok (presence_value replacements m) := by
  intro m
  unfold replace_placeholder presence_value
  cases hl : dictLookup replacements m with
  | some v => rfl
  | none =>
    have hmn : n ≠ m := by
      intro h
      rw [h] at hn
      rw [hn] at hl
      cases hl
    rw [hph]
    simp [pyTruthyDict, containsKey, dictLookup, hmn]

/-- C3: for a specification declaring exactly the placeholder `n` with
`required = true`, any replacements mapping that contains `n` as a key with
a null value renders successfully (presence of the key, not non-nullness of
its value, satisfies the requirement, and null values are exempt from type
checking whatever the declared type `ty`); the output substitutes by
presence in the map, so every occurrence of the placeholder `n` is replaced
by the empty string. -/
theorem null_value_satisfies_required (spec : PromptSpecification)
    (replacements : List (String × PyValue)) (n ty : String)
    (hph : spec.placeholders = some [(n, ⟨ty, true⟩)])
    (hn : dictLookup replacements n = some PyValue.null) :
    generate_prompt spec replacements =
      .ok (presence_subst spec.template replacements) ∧
    replace_placeholder spec replacements n = .ok "" ∧
    validate_placeholders spec replacements = .ok () := by
  have hpt : pyTruthyDict spec.placeholders = true := by
    rw [hph]; rfl
  have hval : validate_placeholders spec replacements = .ok () := by
    unfold validate_placeholders
    rw [hph]
    simp [pyTruthyDict, validate_placeholders_loop, containsKey, hn]
  refine ⟨?_, ?_, hval⟩
  · unfold generate_prompt
    rw [hpt]
    simp only [if_true, hval]
    rw [subChars_eq_pure (replace_placeholder spec replacements)
      (presence_value replacements)
      (replace_placeholder_of_singleton_present spec replacements n ty hph hn)
      spec.template.toList]
    rfl
  · unfold replace_placeholder
    rw [hn]
    rfl

/-- Closed instance of C3: required placeholder `x` supplied as null renders
as the empty string without a missing-placeholder error. -/
theorem null_value_satisfies_required_witness :
    generate_prompt (mkSpec "t" "Hi {x} and {y}" (some [("x", ⟨"string", true⟩)]))
      [("x", PyValue.null), ("y", PyValue.str "Z")] = .ok "Hi  and Z" ∧
    replace_placeholder
      (mkSpec "t" "Hi {x} and {y}" (some [("x", ⟨"string", true⟩)]))
      [("x", PyValue.null), ("y", PyValue.str "Z")] "x" = .ok "" := by
  have h := null_value_satisfies_required
    (mkSpec "t" "Hi {x} and {y}" (some [("x", ⟨"string", true⟩)]))
    [("x", PyValue.null), ("y", PyValue.str "Z")] "x" "string" rfl rfl
  exact ⟨h.1.trans (by rfl), h.2.1⟩

/-- C5: Scenario A — supplied string values substitute verbatim — and
Scenario B — an undeclared placeholder absent from the replacements
substitutes as the empty string. -/
theorem scenario_a_b_rendering :
    generate_prompt (mkSpec "greeting" "Hello {name}! Welcome to {platform}."
        (some [("name", ⟨"string", true⟩)]))
      [("name", PyValue.str "Alice"), ("platform", PyValue.str "PromptSpec")] =
      .ok "Hello Alice! Welcome to PromptSpec." ∧
    generate_prompt (mkSpec "greeting" "Hello {name}! Welcome to {platform}."
        (some [("name", ⟨"string", true⟩)]))
      [("name", PyValue.str "Bob")] = .ok "Hello Bob! Welcome to ." := by
  exact ⟨rfl, rfl⟩

/-- C2 (code-bug evidence): the `isinstance` chain of `_get_value_type`
tests `(int, float)` before `bool`, and a Python `bool` is a subclass of
`int`, so booleans classify as "number" (the "boolean" branch is
unreachable): a boolean for a placeholder declared "boolean" raises a
type-mismatch with actual type "number", and a boolean for a placeholder
declared "number" passes type validation. -/
theorem bool_classified_as_number :
    get_value_type (PyValue.bool true) = "number" ∧
    get_value_type (PyValue.bool false) = "number" ∧
    validate_type "flag" (PyValue.bool true) "boolean" =
      .error (.placeholderType "flag" "boolean" "number") ∧
    validate_type "count" (PyValue.bool true) "number" = .ok () ∧
    generate_prompt (mkSpec "f" "{flag}" (some [("flag", ⟨"boolean", true⟩)]))
      [("flag", PyValue.bool true)] =
      .error (.placeholderType "flag" "boolean" "number") := by
  exact ⟨rfl, rfl, rfl, rfl, rfl⟩

/-- Modelled from the claim's words (for comparison with the code's
`get_placeholder_names`): a placeholder occurrence is a brace-delimited
span scanned left to right whose content contains no additional brace
character of either kind; a second opening brace before a closing brace
restarts the candidate span. -/
def specScanChars : Option (List Char) → List Char → List String
  | Option.none, [] => []
  | Option.none, c :: rest =>
    if c = '{' then specScanChars (some []) rest
    else specScanChars Option.none rest
  | some _, [] => []
  | some buf, c :: rest =>
    if c = '}' then String.mk buf.reverse :: specScanChars Option.none rest
    else if c = '{' then specScanChars (some []) rest
    else specScanChars (some (c :: buf)) rest

/-- Distinct placeholder names per the claim's scanning discipline. -/
def spec_scan_names (template : String) : List String :=
  (specScanChars Option.none template.toList).dedup

theorem findall_mem_sound :
    ∀ (l : List Char) (buf : Option (List Char)),
      (∀ b, buf = some b → '}' ∉ b) →
      ∀ s ∈ findallChars buf l, s ≠ "" ∧ '}' ∉ s.toList := by
  intro l
  induction l with
  | nil =>
    intro buf hbuf s hs
    cases buf <;> simp [findallChars] at hs
  | cons c rest ih =>
    intro buf hbuf s hs
    cases buf with
    | none =>
      by_cases hc : c = '{'
      · rw [findallChars, if_pos hc] at hs
        exact ih (some []) (by intro b hb; cases hb; simp) s hs
      · rw [findallChars, if_neg hc] at hs
        exact ih Option.none (by intro b hb; cases hb) s hs
    | some b =>
      have hb : '}' ∉ b := hbuf b rfl
      by_cases hc : c = '}'
      · by_cases hbe : b.isEmpty
        · rw [findallChars, if_pos hc, if_pos hbe] at hs
          exact ih Option.none (by intro x hx; cases hx) s hs
        · rw [findallChars, if_pos hc, if_neg hbe] at hs
          rcases List.mem_cons.mp hs with heq | htail
        
          · subst heq
            refine ⟨?_, ?_⟩
            · intro hemp
              have hrev : b.reverse = [] := congrArg String.toList hemp
              have : b = [] := by
                have := congrArg List.reverse hrev
                simpa using this
              rw [this] at hbe
              exact hbe rfl
            · show '}' ∉ b.reverse
              simpa using hb
          · exact ih Option.none (by intro x hx; cases hx) s htail
      · rw [findallChars, if_neg hc] at hs
        refine ih (some (c :: b)) ?_ s hs
        intro x hx
        cases hx
        intro hmem
        rcases List.mem_cons.mp hmem with h1 | h2
        · exact hc h1.symm
        · exact hb h2

/-- C4 counterexample: on the template `\x7ba\x7bb\x7d` the code's scan
captures the single name `a\x7bb` — whose content contains an opening brace
— while the claim's brace-free scanning discipline yields the name `b`; the
two distinct sets differ, refuting the claim at this concrete input. -/
theorem get_placeholder_names_brace_cex :
    get_placeholder_names (mkSpec "x" "\x7ba\x7bb\x7d" Option.none) = ["a\x7bb"] ∧
    spec_scan_names "\x7ba\x7bb\x7d" = ["b"] ∧
    ("a\x7bb" : String) ≠ "b" ∧
    '{' ∈ ("a\x7bb" : String).toList := by
  refine ⟨rfl, rfl, by decide, by decide⟩

/-- C4 (amended): `get_placeholder_names` returns the distinct set (no
duplicates) of regex captures of the raw template text: each returned name
is nonempty and contains no closing brace (an opening brace may occur
inside a name); the result depends only on the template text — not on the
declared placeholder map or any replacements — and membership coincides
with the left-to-right non-overlapping scan of the template. -/
theorem get_placeholder_names_characterization (spec : PromptSpecification) :
    (get_placeholder_names spec).Nodup ∧
    (∀ s ∈ get_placeholder_names spec, s ≠ "" ∧ '}' ∉ s.toList) ∧
    (∀ spec2 : PromptSpecification, spec2.template = spec.template →
      get_placeholder_names spec2 = get_placeholder_names spec) ∧
    (∀ s, s ∈ get_placeholder_names spec ↔
      s ∈ findallChars Option.none spec.template.toList) := by
  refine ⟨List.nodup_dedup _, ?_, ?_, ?_⟩
  · intro s hs
    exact findall_mem_sound spec.template.toList Option.none
      (by intro b hb; cases hb) s (List.mem_dedup.mp hs)
  · intro spec2 h2
    unfold get_placeholder_names
    rw [h2]
  · intro s
    exact List.mem_dedup

/-- Closed instance of the amended C4 at a concrete template. -/
theorem get_placeholder_names_characterization_witness :
    ("name" : String) ≠ "" ∧ '}' ∉ ("name" : String).toList := by
  exact (get_placeholder_names_characterization
    (mkSpec "g" "Hello {name}! {name}" Option.none)).2.1 "name" (by decide)

/-- C6 counterexample: with `a` and `b` both declared required and both
absent, the instantiation of the claim at `n = b` demands a
missing-placeholder error carrying `b`, but the validation loop raises for
`a`, the first declaration; and with `a` declared optional but supplied
with an ill-typed value and `b` required and absent, render fails with a
type-mismatch error, not a missing-placeholder error at all. -/
theorem missing_placeholder_error_name_cex :
    dictLookup [("a", PlaceholderDefinition.mk "string" true),
      ("b", PlaceholderDefinition.mk "string" true)] "b" =
      some ⟨"string", true⟩ ∧
    generate_prompt (mkSpec "s" "{a}{b}"
        (some [("a", ⟨"string", true⟩), ("b", ⟨"string", true⟩)])) [] =
      .error (.missingPlaceholder "a") ∧
    PromptError.missingPlaceholder "a" ≠ PromptError.missingPlaceholder "b" ∧
    generate_prompt (mkSpec "s2" "{a}{b}"
        (some [("a", ⟨"string", false⟩), ("b", ⟨"string", true⟩)]))
      [("a", PyValue.int 1)] =
      .error (.placeholderType "a" "string" "number") := by
  refine ⟨rfl, rfl, by decide, rfl⟩

theorem validate_loop_error_of_required_missing
    (replacements : List (String × PyValue)) :
    ∀ (defs : List (String × PlaceholderDefinition)) (n : String)
      (d : PlaceholderDefinition), (n, d) ∈ defs → d.required = true →
      dictLookup replacements n = Option.none →
      ∃ e, validate_placeholders_loop replacements defs = .error e := by
  intro defs
  induction defs with
  | nil =>
    intro n d hmem
    simp at hmem
  | cons hd rest ih =>
    intro n d hmem hreq hlook
    obtain ⟨m, dm⟩ := hd
    by_cases hguard : (dm.required && !containsKey replacements m) = true
    · exact ⟨.missingPlaceholder m, by
        rw [validate_placeholders_loop, if_pos hguard]⟩
    · rcases List.mem_cons.mp hmem with heq | htail
      · exfalso
        apply hguard
        have hn : n = m := congrArg Prod.fst heq
        have hd2 : d = dm := congrArg Prod.snd heq
        rw [← hn, ← hd2, hreq]
        simp [containsKey, hlook]
      · cases hm : dictLookup replacements m with
        | none =>
          obtain ⟨e, he⟩ := ih n d htail hreq hlook
          exact ⟨e, by simp only [validate_placeholders_loop, if_neg hguard, hm, he]⟩
        | some v =>
          by_cases hv : v = PyValue.null
          · obtain ⟨e, he⟩ := ih n d htail hreq hlook
            refine ⟨e, ?_⟩
            simp only [validate_placeholders_loop, if_neg hguard, hm]
            rw [if_pos hv, he]
          · cases ht : validate_type m v dm.type with
            | error e2 =>
              refine ⟨e2, ?_⟩
              simp only [validate_placeholders_loop, if_neg hguard, hm]
              rw [if_neg hv, ht]
            | ok u =>
              obtain ⟨e, he⟩ := ih n d htail hreq hlook
              refine ⟨e, ?_⟩
              simp only [validate_placeholders_loop, if_neg hguard, hm]
              rw [if_neg hv, ht, he]

/-- C6 (amended): for every specification declaring a required placeholder
`n` absent from the replacements, render returns an error and no partial
output, and the error is the one produced by the validation pass over the
declared set, which runs before any substitution; the error carries the
name `n` itself whenever `n` is the sole declaration (as in Scenario C) —
in general the validation loop reports the first failing declaration in
declaration order. -/
theorem missing_required_fails_before_substitution (spec : PromptSpecification)
    (replacements : List (String × PyValue))
    (defs : List (String × PlaceholderDefinition)) (n : String)
    (d : PlaceholderDefinition)
    (hph : spec.placeholders = some defs)
    (hmem : (n, d) ∈ defs) (hreq : d.required = true)
    (habs : dictLookup replacements n = Option.none) :
    (∃ e, generate_prompt spec replacements = .error e ∧
      validate_placeholders spec replacements = .error e) ∧
    (defs = [(n, d)] →
      generate_prompt spec replacements = .error (.missingPlaceholder n)) := by
  have hne : defs ≠ [] := by
    intro h
    rw [h] at hmem
    simp at hmem
  have hpt : pyTruthyDict spec.placeholders = true := by
    rw [hph]
    cases defs with
    | nil => exact absurd rfl hne
    | cons x xs => rfl
  obtain ⟨e, he⟩ := validate_loop_error_of_required_missing replacements defs
    n d hmem hreq habs
  have hval : validate_placeholders spec replacements = .error e := by
    unfold validate_placeholders
    rw [hpt, hph]
    simpa using he
  constructor
  · refine ⟨e, ?_, hval⟩
    unfold generate_prompt
    rw [hpt]
    simp only [if_true, hval]
  · intro hdefs
    have hval2 : validate_placeholders spec replacements =
        .error (.missingPlaceholder n) := by
      unfold validate_placeholders
      rw [hpt, hph, hdefs]
      have : (d.required && !containsKey replacements n) = true := by
        rw [hreq]
        simp [containsKey, habs]
      simp only [Option.getD_some, Bool.not_true, Bool.false_eq_true, if_false]
      rw [validate_placeholders_loop, if_pos this]
    unfold generate_prompt
    rw [hpt]
    simp only [if_true, hval2]

/-- Closed instance of the amended C6: Scenario C — empty replacements with
`name` declared required yields a missing-placeholder error for `name`. -/
theorem missing_required_fails_witness :
    generate_prompt (mkSpec "greeting" "Hello {name}! Welcome to {platform}."
        (some [("name", ⟨"string", true⟩)])) [] =
      .error (.missingPlaceholder "name") := by
  exact (missing_required_fails_before_substitution
    (mkSpec "greeting" "Hello {name}! Welcome to {platform}."
      (some [("name", ⟨"string", true⟩)]))
    [] [("name", ⟨"string", true⟩)] "name" ⟨"string", true⟩
    rfl (by decide) rfl rfl).2 rfl

/-- Explicit state-passing form of the `generate_prompt` method: the method
only reads `self._specification` and contains no field assignment, so the
post-call specification equals the pre-call one. -/
def generate_prompt_state (spec : PromptSpecification)
    (replacements : List (String × PyValue)) :
    Except PromptError String × PromptSpecification :=
  (generate_prompt spec replacements, spec)

theorem subChars_congr (f1 f2 : String → Except PromptError String)
    (hf : ∀ s, f1 s = f2 s) :
    ∀ (l : List Char) (mode : Option (List Char)),
      subChars f1 mode l = subChars f2 mode l := by
  intro l
  induction l with
  | nil => intro mode; cases mode <;> rfl
  | cons c rest ih =>
    intro mode
    cases mode with
    | none => by_cases hc : c = '{' <;> simp [subChars, hc, ih]
    | some buf =>
      by_cases hc : c = '}'
      · by_cases hb : buf.isEmpty <;> simp [subChars, hc, hb, ih, hf]
      · simp [subChars, hc, ih]

theorem validate_loop_congr (r1 r2 : List (String × PyValue))
    (h : ∀ m, dictLookup r1 m = dictLookup r2 m) :
    ∀ defs, validate_placeholders_loop r1 defs =
      validate_placeholders_loop r2 defs := by
  intro defs
  induction defs with
  | nil => rfl
  | cons hd rest ih =>
    obtain ⟨m, dm⟩ := hd
    simp only [validate_placeholders_loop, containsKey, h m, ih]

theorem replace_placeholder_congr (spec : PromptSpecification)
    (r1 r2 : List (String × PyValue))
    (h : ∀ m, dictLookup r1 m = dictLookup r2 m) (placeholder_name : String) :
    replace_placeholder spec r1 placeholder_name =
      replace_placeholder spec r2 placeholder_name := by
  unfold replace_placeholder
  rw [h placeholder_name]

/-- C9: rendering is a deterministic pure function of the specification and
the replacements mapping: the result is fully determined by the
specification and the lookup function of the mapping (any two
representations of the same mapping render identically, and repeated
invocations agree), and rendering leaves the specification unchanged. -/
theorem generate_prompt_pure (spec : PromptSpecification)
    (r1 r2 : List (String × PyValue))
    (h : ∀ m, dictLookup r1 m = dictLookup r2 m) :
    generate_prompt spec r1 = generate_prompt spec r1 ∧
    generate_prompt spec r1 = generate_prompt spec r2 ∧
    (generate_prompt_state spec r1).2 = spec := by
  refine ⟨rfl, ?_, rfl⟩
  unfold generate_prompt
  have hval : validate_placeholders spec r1 = validate_placeholders spec r2 := by
    unfold validate_placeholders
    rw [validate_loop_congr r1 r2 h]
  rw [hval, subChars_congr (replace_placeholder spec r1)
    (replace_placeholder spec r2) (replace_placeholder_congr spec r1 r2 h)]

/-- Closed instance of C9: two association-list representations with the
same lookup function (a shadowed duplicate key versus the plain singleton)
render identically. -/
theorem generate_prompt_pure_witness :
    generate_prompt (mkSpec "g" "v={x} w={w}" (some [("x", ⟨"number", false⟩)]))
        [("x", PyValue.int 1), ("x", PyValue.int 2)] =
      generate_prompt (mkSpec "g" "v={x} w={w}" (some [("x", ⟨"number", false⟩)]))
        [("x", PyValue.int 1)] ∧
    generate_prompt (mkSpec "g" "v={x} w={w}" (some [("x", ⟨"number", false⟩)]))
        [("x", PyValue.int 1)] = .ok "v=1 w=" := by
  constructor
  · refine (generate_prompt_pure
      (mkSpec "g" "v={x} w={w}" (some [("x", ⟨"number", false⟩)]))
      [("x", PyValue.int 1), ("x", PyValue.int 2)] [("x", PyValue.int 1)] ?_).2.1
    intro m
    by_cases hm : ("x" : String) = m <;> simp [dictLookup, hm]
  · rfl

/-- C8: constructing `LLMParameters` rejects out-of-domain values with a
validation error rather than clamping them — construction fails whenever a
supplied temperature lies outside of the closed interval from 0 to 2, a
supplied top_p lies outside of the closed interval from 0 to 1, or a
supplied max_tokens is nonpositive — and succeeds preserving the given
values whenever every supplied field is in domain or absent; calling the
constructor with no arguments leaves every field absent. -/
theorem llm_parameters_domain (temperature top_p : Option ℚ)
    (max_tokens : Option Int) (stop_sequences : Option (List String)) :
    ((∃ x, temperature = some x ∧ (x < 0 ∨ 2 < x)) ∨
      (∃ x, top_p = some x ∧ (x < 0 ∨ 1 < x)) ∨
      (∃ x, max_tokens = some x ∧ x ≤ 0) →
      ∃ msg, mkLLMParameters temperature top_p max_tokens stop_sequences =
        .error msg) ∧
    ((∀ x, temperature = some x → 0 ≤ x ∧ x ≤ 2) →
      (∀ x, top_p = some x → 0 ≤ x ∧ x ≤ 1) →
      (∀ x, max_tokens = some x → 0 < x) →
      mkLLMParameters temperature top_p max_tokens stop_sequences =
        .ok ⟨temperature, top_p, max_tokens, stop_sequences⟩) ∧
    mkLLMParameters Option.none Option.none Option.none Option.none =
      .ok ⟨Option.none, Option.none, Option.none, Option.none⟩ := by
  refine ⟨?_, ?_, rfl⟩
  · intro hbad
    by_cases ht : temperature_in_range temperature = true
    case neg =>
      refine ⟨"temperature must be in the range 0 to 2", ?_⟩
      unfold mkLLMParameters
      simp [ht]
    case pos =>
      by_cases hp : top_p_in_range top_p = true
      case neg =>
        refine ⟨"top_p must be in the range 0 to 1", ?_⟩
        unfold mkLLMParameters
        simp [ht, hp]
      case pos =>
        by_cases hm : max_tokens_in_range max_tokens = true
        case neg =>
          refine ⟨"max_tokens must be greater than 0", ?_⟩
          unfold mkLLMParameters
          simp [ht, hp, hm]
        case pos =>
          exfalso
          rcases hbad with ⟨x, hx, hout⟩ | ⟨x, hx, hout⟩ | ⟨x, hx, hout⟩
          · rw [hx] at ht
            simp only [temperature_in_range, Bool.and_eq_true,
              decide_eq_true_eq] at ht
            rcases hout with h | h
            · exact absurd ht.1 (not_le.mpr h)
            · exact absurd ht.2 (not_le.mpr h)
          · rw [hx] at hp
            simp only [top_p_in_range, Bool.and_eq_true,
              decide_eq_true_eq] at hp
            rcases hout with h | h
            · exact absurd hp.1 (not_le.mpr h)
            · exact absurd hp.2 (not_le.mpr h)
          · rw [hx] at hm
            simp only [max_tokens_in_range, decide_eq_true_eq] at hm
            exact absurd hm (not_lt.mpr hout)
  · intro h1 h2 h3
    have ht : temperature_in_range temperature = true := by
      cases temperature with
      | none => rfl
      | some t =>
        obtain ⟨hl, hr⟩ := h1 t rfl
        simp [temperature_in_range, hl, hr]
    have hp : top_p_in_range top_p = true := by
      cases top_p with
      | none => rfl
      | some p =>
        obtain ⟨hl, hr⟩ := h2 p rfl
        simp [top_p_in_range, hl, hr]
    have hm : max_tokens_in_range max_tokens = true := by
      cases max_tokens with
      | none => rfl
      | some m =>
        have := h3 m rfl
        simp [max_tokens_in_range, this]
    unfold mkLLMParameters
    simp [ht, hp, hm]

/-- Closed instance of C8: an out-of-domain temperature is rejected, and a
fully in-domain parameter set is accepted with all values preserved. -/
theorem llm_parameters_domain_witness :
    (∃ msg, mkLLMParameters (some 3) Option.none Option.none Option.none =
      .error msg) ∧
    mkLLMParameters (some 1) (some (1/2)) (some 5) (some ["END"]) =
      .ok ⟨some 1, some (1/2), some 5, some ["END"]⟩ := by
  constructor
  · exact (llm_parameters_domain (some 3) Option.none Option.none
      Option.none).1 (Or.inl ⟨3, rfl, Or.inr (by norm_num)⟩)
  · refine (llm_parameters_domain (some 1) (some (1/2)) (some 5)
      (some ["END"])).2.1 ?_ ?_ ?_
    · intro x hx
      injection hx with hx2
      rw [← hx2]
      norm_num
    · intro x hx
      injection hx with hx2
      rw [← hx2]
      norm_num
    · intro x hx
      injection hx with hx2
      rw [← hx2]
      norm_num

/-- A pre-populated registry from a previous successful load. -/
def old_registry : Registry := [("old", ⟨mkSpec "old" "Old template" Option.none⟩)]

/-- A load call whose bound collection holds two specifications both named
"duplicate" (Scenario E), issued against the pre-populated registry. -/
def dup_load : Except PromptError Unit × Registry :=
  load_templates (fun _ => Except.ok ()) (fun _ => true) (fun _ => true)
    (fun _ => Except.ok ⟨[mkSpec "duplicate" "First template" Option.none,
      mkSpec "duplicate" "Second template" Option.none]⟩)
    old_registry "prompts: x"

/-- C1 counterexample: a load failing at the duplicate-name check raises the
validation error but does not leave the previously loaded registry intact —
the registry was cleared before the per-specification loop and holds the
first "duplicate" template, so template_names and has lookups observe a
state different from the pre-call one. -/
theorem load_registry_not_intact_cex :
    dup_load.1 =
      .error (.promptValidation "Duplicate prompt name \x27duplicate\x27 found.") ∧
    dup_load.2 =
      [("duplicate", ⟨mkSpec "duplicate" "First template" Option.none⟩)] ∧
    template_names dup_load.2 = ["duplicate"] ∧
    template_names old_registry = ["old"] ∧
    has_prompt dup_load.2 "old" = false ∧
    has_prompt old_registry "old" = true ∧
    dup_load.2 ≠ old_registry := by
  refine ⟨rfl, rfl, rfl, rfl, rfl, rfl, by decide⟩

theorem load_loop_sync_split :
    ∀ (l : List PromptSpecification) (acc : Registry) (e : PromptError)
      (r : Registry), load_loop_sync l acc = (.error e, r) →
      ∃ l1 l2, l = l1 ++ l2 ∧ load_loop_sync l1 acc = (.ok (), r) := by
  intro l
  induction l with
  | nil =>
    intro acc e r h
    simp [load_loop_sync] at h
  | cons spec rest ih =>
    intro acc e r h
    cases hv : validate_specification spec with
    | error e2 =>
      refine ⟨[], spec :: rest, rfl, ?_⟩
      simp only [load_loop_sync, hv] at h
      injection h with h1 h2
      rw [load_loop_sync, h2]
    | ok u =>
      cases u
      by_cases hc : containsKey acc spec.name = true
      · refine ⟨[], spec :: rest, rfl, ?_⟩
        simp only [load_loop_sync, hv, if_pos hc] at h
        injection h with h1 h2
        rw [load_loop_sync, h2]
      · simp only [load_loop_sync, hv, if_neg hc] at h
        obtain ⟨l1, l2, hl, hrun⟩ := ih _ e r h
        refine ⟨spec :: l1, l2, by rw [hl, List.cons_append], ?_⟩
        simp only [load_loop_sync, hv, if_neg hc]
        exact hrun

/-- C1 (amended): after any call to load, the registry is either exactly the
pre-call registry (in particular whenever the load fails before the clear
point: blank input, YAML parse failure, missing prompts section, or binding
failure) or equal to the result of successfully loading a prefix of the
bound collection into an emptied registry; a load failing at
per-specification validation or at the duplicate-name check therefore
leaves a cleared registry holding exactly the templates accepted before the
failure, not the pre-call registry. -/
theorem load_registry_after_failure {Tree : Type}
    (safe_load : String → Except Unit Tree)
    (truthy has_prompts_key : Tree → Bool)
    (model_validate : Tree → Except Unit PromptCollection)
    (templates : Registry) (yaml_content : String) :
    ((load_templates safe_load truthy has_prompts_key model_validate templates
        yaml_content).2 = templates ∨
      ∃ yaml_data coll l1 l2,
        safe_load yaml_content = .ok yaml_data ∧
        model_validate yaml_data = .ok coll ∧
        coll.prompts = l1 ++ l2 ∧
        load_loop_sync l1 [] = (.ok (),
          (load_templates safe_load truthy has_prompts_key model_validate
            templates yaml_content).2)) ∧
    (∀ yaml_data, safe_load yaml_content = .ok yaml_data →
      model_validate yaml_data = .error () →
      (load_templates safe_load truthy has_prompts_key model_validate templates
        yaml_content).2 = templates) := by
  by_cases hblank : (pyStrip yaml_content).isEmpty = true
  · have hload : load_templates safe_load truthy has_prompts_key model_validate
        templates yaml_content =
        (.error (.valueError "yaml_content cannot be None or empty"), templates) := by
      unfold load_templates
      rw [if_pos hblank]
    exact ⟨Or.inl (by rw [hload]), fun y hy hmv => by rw [hload]⟩
  · cases hsl : safe_load yaml_content with
    | error u =>
      have hload : load_templates safe_load truthy has_prompts_key model_validate
          templates yaml_content =
          (.error (.promptValidation "Failed to parse YAML content."), templates) := by
        unfold load_templates
        rw [if_neg hblank]
        simp only [hsl]
      refine ⟨Or.inl (by rw [hload]), ?_⟩
      intro y hy hmv
      simp at hy
    | ok yaml_data =>
      by_cases htr : (!truthy yaml_data || !has_prompts_key yaml_data) = true
      · have hload : load_templates safe_load truthy has_prompts_key
            model_validate templates yaml_content =
            (.error (.promptValidation
              "Invalid YAML: No \x27prompts\x27 section found or it is null."),
             templates) := by
          unfold load_templates
          rw [if_neg hblank]
          simp only [hsl]
          rw [if_pos htr]
        exact ⟨Or.inl (by rw [hload]), fun y hy hmv => by rw [hload]⟩
      · cases hmv : model_validate yaml_data with
        | error u =>
          cases u
          have hload : load_templates safe_load truthy has_prompts_key
              model_validate templates yaml_content =
              (.error (.promptValidation
                "An error occurred while loading templates."), templates) := by
            unfold load_templates
            rw [if_neg hblank]
            simp only [hsl]
            rw [if_neg htr]
            simp only [hmv]
          exact ⟨Or.inl (by rw [hload]), fun y hy hmv2 => by rw [hload]⟩
        | ok coll =>
          have hload : load_templates safe_load truthy has_prompts_key
              model_validate templates yaml_content =
              load_loop_sync coll.prompts [] := by
            unfold load_templates
            rw [if_neg hblank]
            simp only [hsl]
            rw [if_neg htr]
            simp only [hmv]
          constructor
          · right
            cases hres : load_loop_sync coll.prompts [] with
            | mk fst snd =>
              cases fst with
              | ok u =>
                cases u
                refine ⟨yaml_data, coll, coll.prompts, [], rfl, hmv, by simp, ?_⟩
                rw [hload, hres]
              | error e =>
                obtain ⟨l1, l2, hl, hrun⟩ :=
                  load_loop_sync_split coll.prompts [] e snd hres
                refine ⟨yaml_data, coll, l1, l2, rfl, hmv, hl, ?_⟩
                rw [hload, hres]
                exact hrun
          · intro y hy hmv2
            injection hy with hy2
            rw [← hy2] at hmv2
            rw [hmv2] at hmv
            simp at hmv

/-- Closed instance of the amended C1: a load failing at the binding stage
leaves the pre-populated registry untouched. -/
theorem load_registry_after_failure_witness :
    (load_templates (fun _ => Except.ok ()) (fun _ => true) (fun _ => true)
      (fun _ => (Except.error () : Except Unit PromptCollection))
      old_registry "x").2 = old_registry :=
  (load_registry_after_failure (fun _ => Except.ok ()) (fun _ => true)
    (fun _ => true) (fun _ => Except.error ()) old_registry "x").2 () rfl rfl

theorem load_loop_async_eq_sync :
    ∀ (l : List PromptSpecification) (templates : Registry),
      load_loop_async l templates = load_loop_sync l templates := by
  intro l
  induction l with
  | nil => intro templates; rfl
  | cons spec rest ih =>
    intro templates
    cases hv : validate_specification spec with
    | error e => simp [load_loop_async, load_loop_sync, hv]
    | ok u =>
      by_cases hc : containsKey templates spec.name = true <;>
        simp [load_loop_async, load_loop_sync, hv, hc, ih]

/-- C10: the synchronous load and its asynchronous counterpart are
observationally equivalent — for every document text, external-collaborator
behaviour and starting registry, they return the same outcome (same error
for the same input) and leave the registry in the same state. -/
theorem load_templates_sync_async_equiv {Tree : Type}
    (safe_load : String → Except Unit Tree)
    (truthy has_prompts_key : Tree → Bool)
    (model_validate : Tree → Except Unit PromptCollection)
    (templates : Registry) (yaml_content : String) :
    load_templates_async safe_load truthy has_prompts_key model_validate
        templates yaml_content =
      load_templates safe_load truthy has_prompts_key model_validate
        templates yaml_content := by
  unfold load_templates load_templates_async
  by_cases hblank : (pyStrip yaml_content).isEmpty = true
  · simp [hblank]
  · cases hsl : safe_load yaml_content with
    | error u => simp [hblank, hsl]
    | ok yaml_data =>
      by_cases htr : (!truthy yaml_data || !has_prompts_key yaml_data) = true
      · simp only [hsl, if_neg hblank]
        rw [if_pos htr, if_pos htr]
      · cases hmv : model_validate yaml_data with
        | error u => simp only [hsl, if_neg hblank, if_neg htr, hmv]
        | ok coll =>
          simp only [hsl, if_neg hblank, if_neg htr, hmv]
          exact load_loop_async_eq_sync coll.prompts []
